import Mathlib

/-!
Shallow embedding of the rimdesk/rimnats-go wrapper.

The repository contains two parallel packages, nexor and rimnats, which share
almost all code.  Protobuf messages are opaque to the wrapper, so the codec
(proto.Marshal / proto.Unmarshal via a factory) is modelled as an arbitrary
function parameter; the broker client (nats / jetstream) is modelled as oracle
functions passed in explicitly, together with a trace of the transport calls
the wrapper makes, so that claims about "no transport effect" are expressible.
Go errors are values; a Go `error` result is `Option GoError` (none = nil),
and a Go `(value, error)` pair where exactly one side is meaningful is
`Except GoError value`.  Logging has no observable effect and is omitted.
-/

/-- Raw byte payloads (`[]byte` in Go). -/
abbrev Bytes := List Nat

/-- An opaque Go error value. -/
inductive GoError where
  | mk (msg : String) : GoError
  deriving DecidableEq

/-- The process environment: a partial map from variable names to values. -/
abbrev Env := String → Option String

/-- Model of Go `os.LookupEnv`: distinguishes unset from empty. -/
def lookupEnv (env : Env) (k : String) : Option String := env k

/-- Model of Go `os.Getenv`: an unset variable reads as the empty string. -/
def getenv (env : Env) (k : String) : String := (env k).getD ""

/-- Accumulate decimal digits; fails on any non-digit character. -/
def parseDigitsAux : List Char → Nat → Option Nat
  | [], acc => some acc
  | c :: cs, acc =>
    if c.isDigit then parseDigitsAux cs (10 * acc + (c.toNat - 48)) else none

/-- Parse a non-empty all-digit string to a natural number. -/
def parseDigits : List Char → Option Nat
  | [] => none
  | cs => parseDigitsAux cs 0

/-- Model of Go `strconv.Atoi`: optional sign, then decimal digits; on a
syntax error it returns 0 together with an error.  The 64-bit range clamping
of the real Atoi is not modelled; no claim depends on it. -/
def goAtoi (s : String) : Int × Option GoError :=
  match s.toList with
  | '+' :: cs =>
    match parseDigits cs with
    | some n => ((n : Int), none)
    | none => (0, some (GoError.mk "invalid syntax"))
  | '-' :: cs =>
    match parseDigits cs with
    | some n => (-(n : Int), none)
    | none => (0, some (GoError.mk "invalid syntax"))
  | cs =>
    match parseDigits cs with
    | some n => ((n : Int), none)
    | none => (0, some (GoError.mk "invalid syntax"))

/-- A `nats.Option` passed to the connection call; the three shapes the
wrapper constructs (src/unnamed/part_001 lines 130-134 and part_002 lines
147-151), reconnect wait in seconds. -/
inductive NatsOption where
  | name (s : String)
  | maxReconnects (n : Int)
  | reconnectWait (secs : Int)
  deriving DecidableEq

/-- The configuration record; both packages declare an identical struct named
`nexorConfig` (src/unnamed/part_001 lines 80-88, part_002 lines 81-89). -/
structure nexorConfig where
  Url : String := ""
  ClientName : String := ""
  Debug : Bool := false
  MaxConn : Int := 0
  MaxRecon : Int := 0
  ReconWait : Int := 0
  Opts : List NatsOption := []
  deriving DecidableEq

/-- Embedding of `getConfig` in package nexor (src/unnamed/part_001 lines
92-118).  Fields not assigned there (Url, MaxRecon, Opts) keep their zero
values, exactly as the Go struct literal leaves them. -/
def nexorGetConfig (env : Env) : nexorConfig :=
  let debugMode := false
  let clientName := "Nexor"
  let maxConn : Int := 5
  let maxWait : Int := 5
  let debugMode :=
    match lookupEnv env "NEXOR.DEBUG" with
    | some v => v == "true"
    | none => debugMode
  let clientName :=
    match lookupEnv env "NEXOR.CLIENT" with
    | some v => v
    | none => clientName
  let maxConn :=
    if getenv env "NEXOR.MAX_CONNECTIONS" ≠ "" then
      (goAtoi (getenv env "NEXOR.MAX_CONNECTIONS")).1
    else maxConn
  let maxWait :=
    if getenv env "NEXOR.MAX_RECONNECT_WAIT" ≠ "" then
      (goAtoi (getenv env "NEXOR.MAX_RECONNECT_WAIT")).1
    else maxWait
  { ClientName := clientName, Debug := debugMode, MaxConn := maxConn,
    ReconWait := maxWait }

/-- Embedding of `getConfig` in package rimnats (src/unnamed/part_002 lines
93-119); identical to the nexor one except for the env prefix and the
default client name. -/
def rimnatsGetConfig (env : Env) : nexorConfig :=
  let debugMode := false
  let clientName := "Rimnats"
  let maxConn : Int := 5
  let maxWait : Int := 5
  let debugMode :=
    match lookupEnv env "RIMNATS.DEBUG" with
    | some v => v == "true"
    | none => debugMode
  let clientName :=
    match lookupEnv env "RIMNATS.CLIENT" with
    | some v => v
    | none => clientName
  let maxConn :=
    if getenv env "RIMNATS.MAX_CONNECTIONS" ≠ "" then
      (goAtoi (getenv env "RIMNATS.MAX_CONNECTIONS")).1
    else maxConn
  let maxWait :=
    if getenv env "RIMNATS.MAX_RECONNECT_WAIT" ≠ "" then
      (goAtoi (getenv env "RIMNATS.MAX_RECONNECT_WAIT")).1
    else maxWait
  { ClientName := clientName, Debug := debugMode, MaxConn := maxConn,
    ReconWait := maxWait }

/-- A broker connection; the only state the wrapper ever queries or changes
is whether it has been closed. -/
structure Conn where
  closed : Bool
  deriving DecidableEq

/-- The `nexor` client struct (src/unnamed/part_001 lines 31-35): connection,
jetstream context and configuration.  Nil pointers are `none`. -/
structure NexorState where
  conn : Option Conn
  js : Option Unit
  cfg : nexorConfig
  deriving DecidableEq

/-- The `rimNats` client struct (src/unnamed/part_002 lines 31-36); it
additionally carries a logger, which has no observable state here. -/
structure RimNatsState where
  conn : Option Conn
  cfg : nexorConfig
  loggR : Unit
  js : Option Unit
  deriving DecidableEq

/-- The default option list built inside both `New` functions when the caller
supplies no options (src/unnamed/part_001 lines 130-134, part_002 lines
147-151). -/
def defaultNatsOptions (cfg : nexorConfig) : List NatsOption :=
  [NatsOption.name cfg.ClientName, NatsOption.maxReconnects cfg.MaxRecon,
   NatsOption.reconnectWait cfg.ReconWait]

/-- Embedding of `New` in package nexor (src/unnamed/part_001 lines 124-138).
The Go code stores the caller's `opts` into `cfg.Opts`, then, when `opts` is
empty, reassigns the LOCAL variable `opts` to the default option list and
never reads it again; the returned struct carries only `cfg`.  The dead
rebinding is kept here as `_opts` to mirror that control flow. -/
def nexorNew (env : Env) (url : String) (opts : List NatsOption) : NexorState :=
  let cfg := nexorGetConfig env
  let cfg := { cfg with Url := url, Opts := opts }
  let _opts := if opts.length = 0 then defaultNatsOptions cfg else opts
  { conn := none, js := none, cfg := cfg }

/-- Embedding of `New` in package rimnats (src/unnamed/part_002 lines
141-155); same shape as the nexor one, with the same dead rebinding of the
local `opts`. -/
def rimnatsNew (env : Env) (url : String) (opts : List NatsOption) : RimNatsState :=
  let cfg := rimnatsGetConfig env
  let cfg := { cfg with Url := url, Opts := opts }
  let _opts := if opts.length = 0 then defaultNatsOptions cfg else opts
  { conn := none, cfg := cfg, loggR := (), js := none }

/-- Outcome of an operation that may terminate the process (os.Exit /
log.Fatalf) instead of returning. -/
inductive Outcome (α : Type) where
  | ret (a : α)
  | fatal
  deriving DecidableEq

/-- Embedding of `Connect` in package nexor (src/unnamed/part_001 lines
50-77).  `dial` models `nats.Connect`, `newJS` models `jetstream.New`; the
second component records the one dial call made, with the url and option
list the wrapper passed to it.  Every failure path ends in `os.Exit(1)`,
hence `Outcome.fatal`. -/
def nexorConnect (dial : String → List NatsOption → Except GoError Conn)
    (newJS : Conn → Except GoError Unit) (n : NexorState) :
    Outcome NexorState × List (String × List NatsOption) :=
  ((match dial n.cfg.Url n.cfg.Opts with
    | Except.error _ => Outcome.fatal
    | Except.ok conn =>
      match newJS conn with
      | Except.error _ => Outcome.fatal
      | Except.ok js => Outcome.ret { n with conn := some conn, js := some js }),
   [(n.cfg.Url, n.cfg.Opts)])

/-- Embedding of `Connect` in package rimnats (src/unnamed/part_002 lines
51-78); identical control flow to the nexor one. -/
def rimConnect (dial : String → List NatsOption → Except GoError Conn)
    (newJS : Conn → Except GoError Unit) (n : RimNatsState) :
    Outcome RimNatsState × List (String × List NatsOption) :=
  ((match dial n.cfg.Url n.cfg.Opts with
    | Except.error _ => Outcome.fatal
    | Except.ok conn =>
      match newJS conn with
      | Except.error _ => Outcome.fatal
      | Except.ok js => Outcome.ret { n with conn := some conn, js := some js }),
   [(n.cfg.Url, n.cfg.Opts)])

/-- Embedding of `Close` in package nexor (src/unnamed/part_001 lines
141-145): close only a non-nil, not-yet-closed connection. -/
def nexorClose (n : NexorState) : NexorState :=
  match n.conn with
  | some c =>
    if c.closed = false then { n with conn := some { c with closed := true } } else n
  | none => n

/-- Embedding of `Close` in package rimnats (src/unnamed/part_002 lines
158-162); same logic. -/
def rimClose (n : RimNatsState) : RimNatsState :=
  match n.conn with
  | some c =>
    if c.closed = false then { n with conn := some { c with closed := true } } else n
  | none => n

/-- Embedding of `CreateStream` in package nexor (src/unnamed/part_001 lines
37-44): on failure of the underlying create-or-update call it invokes
`log.Fatalf`, terminating the process; on success it returns nil. -/
def nexorCreateStream {SC : Type} (createOrUpdateStream : SC → Except GoError Unit)
    (config : SC) : Outcome (Option GoError) :=
  match createOrUpdateStream config with
  | Except.error _ => Outcome.fatal
  | Except.ok _ => Outcome.ret none

/-- Embedding of `CreateStream` in package rimnats (src/unnamed/part_002
lines 38-45): on failure it only logs, then falls through to `return nil`. -/
def rimCreateStream {SC : Type} (createOrUpdateStream : SC → Except GoError Unit)
    (config : SC) : Option GoError :=
  match createOrUpdateStream config with
  | Except.error _ => none
  | Except.ok _ => none

/-- Embedding of `Publish` (src/publisher.go lines 22-49).  `marshal` models
`proto.Marshal`, `jsPublish` models `js.Publish` (its ack is only logged, so
modelled as Unit).  The second component records the publish calls made, so
that "the transport is never invoked" is expressible.  The final Go
`return err` returns the nil error from the successful publish. -/
def nexorPublish {M : Type} (marshal : M → Except GoError Bytes)
    (jsPublish : String → Bytes → Except GoError Unit)
    (subject : String) (msg : M) : Option GoError × List (String × Bytes) :=
  match marshal msg with
  | Except.error e => (some e, [])
  | Except.ok data =>
    match jsPublish subject data with
    | Except.error e => (some e, [(subject, data)])
    | Except.ok _ => (none, [(subject, data)])

/-- Embedding of `Request` (src/request.go lines 16-42).  `marshal` models
`proto.Marshal`; `transport` models `conn.RequestWithContext`, which the
source calls with the context, subject and encoded bytes — note the
`timeout` argument appears nowhere in the body; `unmarshal` models
`factory()` followed by `proto.Unmarshal` on the raw reply bytes.  Returns
the Go `(proto.Message, error)` pair and the list of transport calls made. -/
def rimRequest {Ctx M R : Type} (marshal : M → Except GoError Bytes)
    (transport : Ctx → String → Bytes → Except GoError Bytes)
    (unmarshal : Bytes → Except GoError R)
    (ctx : Ctx) (subject : String) (req : M) (timeout : Nat) :
    (Option R × Option GoError) × List (Ctx × String × Bytes) :=
  match marshal req with
  | Except.error e => ((none, some e), [])
  | Except.ok data =>
    match transport ctx subject data with
    | Except.error e => ((none, some e), [(ctx, subject, data)])
    | Except.ok raw =>
      match unmarshal raw with
      | Except.error e => ((none, some e), [(ctx, subject, data)])
      | Except.ok reply => ((some reply, none), [(ctx, subject, data)])

/-- Acknowledgment operations the wrapper itself may perform on a delivered
message. -/
inductive AckOp where
  | ack
  | nak
  deriving DecidableEq

/-- Embedding of the per-message consume callback inside `Subscribe`
(src/unnamed/part_000 lines 72-93).  `unmarshal` models `factory()` plus
`proto.Unmarshal` on the delivered bytes; `handler` models the user
ProtoHandler, receiving the context, decoded message and raw bytes and
returning a Go error (none = nil).  Result: the list of wrapper-issued
acknowledgment operations, in order, and the number of handler invocations.
Acks the handler itself performs are its own and are not in the list. -/
def subscribeCallback {Ctx M : Type} (unmarshal : Bytes → Except GoError M)
    (handler : Ctx → M → Bytes → Option GoError)
    (ctx : Ctx) (mdata : Bytes) : List AckOp × Nat :=
  match unmarshal mdata with
  | Except.error _ => ([AckOp.nak], 0)
  | Except.ok msg =>
    match handler ctx msg mdata with
    | some _ => ([AckOp.nak], 1)
    | none => ([], 1)

/-- Embedding of the per-message callback inside `Reply` (src/reply.go lines
15-43).  `unmarshalReq` models `reqFactory()` plus `proto.Unmarshal`;
`handler` returns a response or an error; `marshalResp` models
`proto.Marshal` of the response.  Result: the list of payloads sent back via
`m.Respond`, in order (a decode or encode failure returns without
responding; a handler error responds with the empty payload). -/
def replyCallback {Req Resp : Type} (unmarshalReq : Bytes → Except GoError Req)
    (handler : Req → Except GoError Resp)
    (marshalResp : Resp → Except GoError Bytes)
    (mdata : Bytes) : List Bytes :=
  match unmarshalReq mdata with
  | Except.error _ => []
  | Except.ok req =>
    match handler req with
    | Except.error _ => [[]]
    | Except.ok resp =>
      match marshalResp resp with
      | Except.error _ => []
      | Except.ok data => [data]

/-- Claim C5: when protobuf marshaling of the message fails, Publish returns
that encode error and the broker publish primitive is never invoked (the
transport-call trace is empty). -/
theorem publish_encode_failure_no_transport {M : Type}
    (marshal : M → Except GoError Bytes)
    (jsPublish : String → Bytes → Except GoError Unit)
    (subject : String) (msg : M) (e : GoError)
    (h : marshal msg = Except.error e) :
    nexorPublish marshal jsPublish subject msg = (some e, []) := by
  simp [nexorPublish, h]

/-- Witness for C5 at a concrete failing codec. -/
theorem publish_encode_failure_no_transport_witness :
    ((fun _ : Nat => (Except.error (GoError.mk "enc") : Except GoError Bytes)) 0 =
      Except.error (GoError.mk "enc")) ∧
    nexorPublish (fun _ : Nat => (Except.error (GoError.mk "enc") : Except GoError Bytes))
      (fun _ _ => Except.ok ()) "s" 0 = (some (GoError.mk "enc"), []) :=
  ⟨rfl, publish_encode_failure_no_transport _ _ "s" 0 (GoError.mk "enc") rfl⟩

/-- Claim C3: a delivered payload that fails protobuf decoding results in
exactly one wrapper negative acknowledgment and zero handler invocations. -/
theorem subscribe_decode_failure_naks_once {Ctx M : Type}
    (unmarshal : Bytes → Except GoError M)
    (handler : Ctx → M → Bytes → Option GoError)
    (ctx : Ctx) (mdata : Bytes) (e : GoError)
    (h : unmarshal mdata = Except.error e) :
    (subscribeCallback unmarshal handler ctx mdata).1 = [AckOp.nak] ∧
    (subscribeCallback unmarshal handler ctx mdata).1.count AckOp.nak = 1 ∧
    (subscribeCallback unmarshal handler ctx mdata).2 = 0 := by
  have hs : subscribeCallback unmarshal handler ctx mdata = ([AckOp.nak], 0) := by
    simp [subscribeCallback, h]
  rw [hs]
  exact ⟨rfl, by decide, rfl⟩

/-- Witness for C3 at a concrete failing decoder. -/
theorem subscribe_decode_failure_naks_once_witness :
    ((fun _ : Bytes => (Except.error (GoError.mk "dec") : Except GoError Nat)) [0] =
      Except.error (GoError.mk "dec")) ∧
    (subscribeCallback (fun _ : Bytes => (Except.error (GoError.mk "dec") : Except GoError Nat))
      (fun (_ : Unit) _ _ => none) () [0]).2 = 0 :=
  ⟨rfl, (subscribe_decode_failure_naks_once _ _ () [0] (GoError.mk "dec") rfl).2.2⟩

/-- Claim C4: a successfully decoded message whose handler returns an error
gets exactly one wrapper negative acknowledgment; and on every delivered
message, whatever the outcome, the wrapper itself issues zero positive
acknowledgments. -/
theorem subscribe_handler_error_naks_wrapper_never_acks {Ctx M : Type}
    (unmarshal : Bytes → Except GoError M)
    (handler : Ctx → M → Bytes → Option GoError)
    (ctx : Ctx) (mdata : Bytes) :
    (∀ msg e, unmarshal mdata = Except.ok msg → handler ctx msg mdata = some e →
      (subscribeCallback unmarshal handler ctx mdata).1.count AckOp.nak = 1 ∧
      (subscribeCallback unmarshal handler ctx mdata).2 = 1) ∧
    (subscribeCallback unmarshal handler ctx mdata).1.count AckOp.ack = 0 := by
  constructor
  · intro msg e h1 h2
    have hs : subscribeCallback unmarshal handler ctx mdata = ([AckOp.nak], 1) := by
      simp [subscribeCallback, h1, h2]
    rw [hs]
    exact ⟨by decide, rfl⟩
  · rcases hu : unmarshal mdata with e | msg
    · have hs : subscribeCallback unmarshal handler ctx mdata = ([AckOp.nak], 0) := by
        simp [subscribeCallback, hu]
      rw [hs]; decide
    · rcases hh : handler ctx msg mdata with _ | e2
      · have hs : subscribeCallback unmarshal handler ctx mdata = ([], 1) := by
          simp [subscribeCallback, hu, hh]
        rw [hs]; decide
      · have hs : subscribeCallback unmarshal handler ctx mdata = ([AckOp.nak], 1) := by
          simp [subscribeCallback, hu, hh]
        rw [hs]; decide

/-- Witness for C4 at a concrete decoder and failing handler. -/
theorem subscribe_handler_error_naks_wrapper_never_acks_witness :
    ((fun _ : Bytes => (Except.ok 7 : Except GoError Nat)) [1] = Except.ok 7) ∧
    ((fun (_ : Unit) (_ : Nat) (_ : Bytes) => (some (GoError.mk "hfail") : Option GoError)) () 7 [1] =
      some (GoError.mk "hfail")) ∧
    (subscribeCallback (fun _ : Bytes => (Except.ok 7 : Except GoError Nat))
      (fun (_ : Unit) (_ : Nat) (_ : Bytes) => (some (GoError.mk "hfail") : Option GoError))
      () [1]).1.count AckOp.nak = 1 :=
  ⟨rfl, rfl,
    ((subscribe_handler_error_naks_wrapper_never_acks _ _ () [1]).1 7 (GoError.mk "hfail")
      rfl rfl).1⟩

/-- Claim C6: per inbound message of a Reply subscription — decode failure
sends no response; a handler error sends exactly one empty-payload response;
an encode failure of the handler's response sends no response; and when all
stages succeed exactly one encoded response is sent via the respond
primitive. -/
theorem reply_response_behavior {Req Resp : Type}
    (unmarshalReq : Bytes → Except GoError Req)
    (handler : Req → Except GoError Resp)
    (marshalResp : Resp → Except GoError Bytes)
    (mdata : Bytes) :
    (∀ e, unmarshalReq mdata = Except.error e →
      replyCallback unmarshalReq handler marshalResp mdata = []) ∧
    (∀ req e, unmarshalReq mdata = Except.ok req → handler req = Except.error e →
      replyCallback unmarshalReq handler marshalResp mdata = [[]]) ∧
    (∀ req resp e, unmarshalReq mdata = Except.ok req → handler req = Except.ok resp →
      marshalResp resp = Except.error e →
      replyCallback unmarshalReq handler marshalResp mdata = []) ∧
    (∀ req resp data, unmarshalReq mdata = Except.ok req → handler req = Except.ok resp →
      marshalResp resp = Except.ok data →
      replyCallback unmarshalReq handler marshalResp mdata = [data]) := by
  refine ⟨?_, ?_, ?_, ?_⟩
  · intro e h1
    simp [replyCallback, h1]
  · intro req e h1 h2
    simp [replyCallback, h1, h2]
  · intro req resp e h1 h2 h3
    simp [replyCallback, h1, h2, h3]
  · intro req resp data h1 h2 h3
    simp [replyCallback, h1, h2, h3]

/-- Witness for C6 at a concrete all-stages-successful instance. -/
theorem reply_response_behavior_witness :
    ((fun _ : Bytes => (Except.ok 1 : Except GoError Nat)) [9] = Except.ok 1) ∧
    ((fun n : Nat => (Except.ok (n + 1) : Except GoError Nat)) 1 = Except.ok 2) ∧
    ((fun n : Nat => (Except.ok [n] : Except GoError Bytes)) 2 = Except.ok [2]) ∧
    replyCallback (fun _ : Bytes => (Except.ok 1 : Except GoError Nat))
      (fun n : Nat => (Except.ok (n + 1) : Except GoError Nat))
      (fun n : Nat => (Except.ok [n] : Except GoError Bytes)) [9] = [[2]] :=
  ⟨rfl, rfl, rfl,
    (reply_response_behavior _ _ _ [9]).2.2.2 1 2 [2] rfl rfl rfl⟩

/-- Claim C7: Request returns the decoded reply with a nil error on success,
and otherwise a nil message with the first error encountered, in stage order
encode, then transport, then decode; no later stage runs after an earlier
failure (on encode failure the transport-call trace is empty). -/
theorem request_first_error_stage_order {Ctx M R : Type}
    (marshal : M → Except GoError Bytes)
    (transport : Ctx → String → Bytes → Except GoError Bytes)
    (unmarshal : Bytes → Except GoError R)
    (ctx : Ctx) (subject : String) (req : M) (timeout : Nat) :
    (∀ e, marshal req = Except.error e →
      rimRequest marshal transport unmarshal ctx subject req timeout =
        ((none, some e), [])) ∧
    (∀ data e, marshal req = Except.ok data → transport ctx subject data = Except.error e →
      rimRequest marshal transport unmarshal ctx subject req timeout =
        ((none, some e), [(ctx, subject, data)])) ∧
    (∀ data raw e, marshal req = Except.ok data → transport ctx subject data = Except.ok raw →
      unmarshal raw = Except.error e →
      rimRequest marshal transport unmarshal ctx subject req timeout =
        ((none, some e), [(ctx, subject, data)])) ∧
    (∀ data raw reply, marshal req = Except.ok data →
      transport ctx subject data = Except.ok raw → unmarshal raw = Except.ok reply →
      rimRequest marshal transport unmarshal ctx subject req timeout =
        ((some reply, none), [(ctx, subject, data)])) := by
  refine ⟨?_, ?_, ?_, ?_⟩
  · intro e h1
    simp [rimRequest, h1]
  · intro data e h1 h2
    simp [rimRequest, h1, h2]
  · intro data raw e h1 h2 h3
    simp [rimRequest, h1, h2, h3]
  · intro data raw reply h1 h2 h3
    simp [rimRequest, h1, h2, h3]

/-- Witness for C7 at a concrete all-stages-successful instance. -/
theorem request_first_error_stage_order_witness :
    ((fun n : Nat => (Except.ok [n] : Except GoError Bytes)) 3 = Except.ok [3]) ∧
    ((fun (_ : Unit) (_ : String) (_ : Bytes) => (Except.ok [5] : Except GoError Bytes)) () "s" [3] =
      Except.ok [5]) ∧
    ((fun b : Bytes => (Except.ok b.length : Except GoError Nat)) [5] = Except.ok 1) ∧
    rimRequest (fun n : Nat => (Except.ok [n] : Except GoError Bytes))
      (fun (_ : Unit) (_ : String) (_ : Bytes) => (Except.ok [5] : Except GoError Bytes))
      (fun b : Bytes => (Except.ok b.length : Except GoError Nat))
      () "s" 3 42 = ((some 1, none), [((), "s", [3])]) :=
  ⟨rfl, rfl, rfl,
    (request_first_error_stage_order _ _ _ () "s" 3 42).2.2.2 [3] [5] 1 rfl rfl rfl⟩

/-- Claim C1 (code bug exhibit): the result of Request — reply, error and the
transport call it makes — is identical for any two values of the timeout
argument, because the source body never reads `timeout`: the call it issues
is `RequestWithContext(ctx, subject, data)`, so only the caller's context,
not the timeout parameter, can bound the wait.  This contradicts the claim
(and the function's own doc comment) that the timeout argument limits how
long the transport call waits. -/
theorem rimRequest_ignores_timeout {Ctx M R : Type}
    (marshal : M → Except GoError Bytes)
    (transport : Ctx → String → Bytes → Except GoError Bytes)
    (unmarshal : Bytes → Except GoError R)
    (ctx : Ctx) (subject : String) (req : M) (t1 t2 : Nat) :
    rimRequest marshal transport unmarshal ctx subject req t1 =
      rimRequest marshal transport unmarshal ctx subject req t2 := rfl

/-- Claim C2 (code bug exhibit): for a client built by New with no options,
Connect dials with an EMPTY option list — the url paired with `[]` is the
one dial call recorded — even though the default option list New builds
(client name, max reconnects, reconnect wait) is non-empty (length 3).  New
assigns `cfg.Opts = opts` before rebinding only its local `opts` to the
defaults, so the defaults never reach the connection, for both package
variants. -/
theorem new_discards_default_options (env : Env) (url : String)
    (dial : String → List NatsOption → Except GoError Conn)
    (newJS : Conn → Except GoError Unit) :
    (rimConnect dial newJS (rimnatsNew env url [])).2 = [(url, [])] ∧
    (defaultNatsOptions (rimnatsNew env url []).cfg).length = 3 ∧
    (nexorConnect dial newJS (nexorNew env url [])).2 = [(url, [])] ∧
    (defaultNatsOptions (nexorNew env url []).cfg).length = 3 :=
  ⟨rfl, rfl, rfl, rfl⟩

/-- Claim C8: CreateStream never returns a non-nil error to its caller: the
rimnats variant returns nil whatever the underlying create-or-update call
does (it only logs on failure), and the nexor variant either returns nil or
terminates the process (log.Fatalf) — it never returns with an error. -/
theorem createStream_never_returns_error :
    (∀ (SC : Type) (createOrUpdateStream : SC → Except GoError Unit) (config : SC),
      rimCreateStream createOrUpdateStream config = none) ∧
    (∀ (SC : Type) (createOrUpdateStream : SC → Except GoError Unit) (config : SC),
      nexorCreateStream createOrUpdateStream config = Outcome.fatal ∨
      nexorCreateStream createOrUpdateStream config = Outcome.ret none) := by
  constructor
  · intro SC f c
    rcases hfc : f c with e | u <;> simp [rimCreateStream, hfc]
  · intro SC f c
    rcases hfc : f c with e | u
    · left
      simp [nexorCreateStream, hfc]
    · right
      simp [nexorCreateStream, hfc]

/-- Claim C9: configuration resolution — with no environment variables set
the defaults are client name Nexor (nexor) or Rimnats (rimnats), debug
false, maxConn 5 and reconnect wait 5; with the MAX_CONNECTIONS variable set
to the string 10 the resolved maxConn is 10; and debug resolves to true
exactly when the DEBUG variable is the string true. -/
theorem getConfig_resolution :
    (nexorGetConfig (fun _ => none)).ClientName = "Nexor" ∧
    (nexorGetConfig (fun _ => none)).Debug = false ∧
    (nexorGetConfig (fun _ => none)).MaxConn = 5 ∧
    (nexorGetConfig (fun _ => none)).ReconWait = 5 ∧
    (rimnatsGetConfig (fun _ => none)).ClientName = "Rimnats" ∧
    (rimnatsGetConfig (fun _ => none)).Debug = false ∧
    (rimnatsGetConfig (fun _ => none)).MaxConn = 5 ∧
    (rimnatsGetConfig (fun _ => none)).ReconWait = 5 ∧
    (nexorGetConfig (fun k => if k = "NEXOR.MAX_CONNECTIONS" then some "10" else none)).MaxConn = 10 ∧
    (rimnatsGetConfig (fun k => if k = "RIMNATS.MAX_CONNECTIONS" then some "10" else none)).MaxConn = 10 ∧
    (∀ env : Env, (nexorGetConfig env).Debug = true ↔ lookupEnv env "NEXOR.DEBUG" = some "true") ∧
    (∀ env : Env, (rimnatsGetConfig env).Debug = true ↔ lookupEnv env "RIMNATS.DEBUG" = some "true") := by
  refine ⟨rfl, rfl, rfl, rfl, rfl, rfl, rfl, rfl, by decide, by decide, ?_, ?_⟩
  · intro env
    cases h : env "NEXOR.DEBUG" with
    | none => simp [nexorGetConfig, lookupEnv, h]
    | some v => simp [nexorGetConfig, lookupEnv, h]
  · intro env
    cases h : env "RIMNATS.DEBUG" with
    | none => simp [rimnatsGetConfig, lookupEnv, h]
    | some v => simp [rimnatsGetConfig, lookupEnv, h]

/-- Claim C10: Close is idempotent — with no connection ever established it
is a no-op leaving the client state unchanged, and a second Close after a
first one changes nothing, for both package variants. -/
theorem close_idempotent :
    (∀ cfg, nexorClose { conn := none, js := none, cfg := cfg } =
      ({ conn := none, js := none, cfg := cfg } : NexorState)) ∧
    (∀ s : NexorState, nexorClose (nexorClose s) = nexorClose s) ∧
    (∀ cfg, rimClose { conn := none, cfg := cfg, loggR := (), js := none } =
      ({ conn := none, cfg := cfg, loggR := (), js := none } : RimNatsState)) ∧
    (∀ s : RimNatsState, rimClose (rimClose s) = rimClose s) := by
  refine ⟨fun cfg => rfl, ?_, fun cfg => rfl, ?_⟩
  · intro s
    rcases s with ⟨conn, js, cfg⟩
    cases conn with
    | none => rfl
    | some c =>
      rcases c with ⟨closed⟩
      cases closed <;> rfl
  · intro s
    rcases s with ⟨conn, cfg, lg, js⟩
    cases conn with
    | none => rfl
    | some c =>
      rcases c with ⟨closed⟩
      cases closed <;> rfl
